import Mathlib

/-!
# exasol-driver-go: `connection.go`

A shallow embedding of the connection engine of the driver (`src/connection.go`):
the statement-execution paths (`exec`, `query`, `simpleExec`,
`executePreparedStatement`, `closePreparedStatement`), the lifecycle operations
(`Prepare`, `Begin`, `Close`) and the handshake (`login`).

Conventions of the embedding.

* A Go method on `*connection` becomes a function `World → Except Fault α × World`.
  The `World` holds the fields of the connection and the list of every command
  written to the transport so far.  The state is returned also when the run ends in
  a runtime fault (a Go panic), so that what was sent before the fault stays visible.
* A Go result `(T, error)` becomes `Except Error T`; a bare `error` becomes
  `Option Error` (`none` is Go's `nil`).
* Logging (`log.Printf`, `errorLogger.Print`) has no effect on control flow or on
  the state and is left out.
* `len` is a natural number; `%` on it is guarded by an explicit division-by-zero
  fault, as in Go.
-/

namespace Exasol

/-! ## Data model -/

/-- A bind value (`driver.Value`); floating point and time values are not needed by
the properties below and are left out. -/
inductive Value where
  | null
  | int (n : Int)
  | bool (b : Bool)
  | str (s : String)
  | bytes (b : List Nat)
  deriving DecidableEq, Repr

/-- The errors a call can return. `other` stands for any error produced by the
command/response engine that is not one of the named package values (the text of a
server exception, a decoding failure). -/
inductive Error where
  | ErrBadConn
  | ErrClosed
  | ErrAutocommitEnabled
  | ErrInvalidValuesCount
  | ErrMalformData
  | other (msg : String)
  deriving DecidableEq, Repr

/-- Runtime faults of Go (panics). -/
inductive Fault where
  | integerDivideByZero
  | indexOutOfRange
  | nilPointerDereference
  deriving DecidableEq, Repr

/-- The fields of `Config` read by `connection.go`. The type declaration is not part
of the file; the fields are the ones the code mentions. -/
structure Config where
  User : String
  Password : String
  ApiVersion : Int
  Autocommit : Bool
  ClientName : String
  deriving DecidableEq, Repr

/-- The session descriptor returned by the authentication exchange; only
`SessionID` is read by the code, the rest of the metadata is kept as one text. -/
structure AuthResponse where
  SessionID : Int
  metadata : String
  deriving DecidableEq, Repr

structure PublicKeyResponse where
  PublicKeyModulus : String
  PublicKeyExponent : String
  deriving DecidableEq, Repr

structure SQLQueryColumn where
  Name : String
  DataType : String
  deriving DecidableEq, Repr

structure ParameterData where
  NumColumns : Int
  Columns : List SQLQueryColumn
  deriving DecidableEq, Repr

structure CreatePreparedStatementResponse where
  StatementHandle : Int
  ParameterData : ParameterData
  deriving DecidableEq, Repr

/-- The result set of an execute call; the code reads `NumResults` only, the
results themselves are passed on to the adapters. -/
structure SQLQueriesResponse where
  NumResults : Int
  Results : List String
  deriving DecidableEq, Repr

/-! ### Command envelopes -/

structure Command where
  Command : String
  deriving DecidableEq, Repr

structure Attributes where
  Autocommit : Bool
  deriving DecidableEq, Repr

structure LoginCommand where
  Command : Command
  ProtocolVersion : Int
  Attributes : Attributes
  deriving DecidableEq, Repr

structure AuthCommand where
  Username : String
  Password : String
  UseCompression : Bool
  ClientName : String
  DriverName : String
  ClientOs : String
  ClientVersion : String
  ClientRuntime : String
  ClientOsUsername : String
  Attributes : Attributes
  deriving DecidableEq, Repr

structure SQLCommand where
  Command : Command
  SQLText : String
  deriving DecidableEq, Repr

structure CreatePreparedStatementCommand where
  Command : Command
  SQLText : String
  deriving DecidableEq, Repr

/-- The `Data` matrix is a slice of slices; an inner slice that was never allocated
is Go's `nil`, here `none`. -/
structure ExecutePreparedStatementCommand where
  Command : Command
  StatementHandle : Int
  Columns : List SQLQueryColumn
  NumColumns : Nat
  NumRows : Nat
  Data : List (Option (List Value))
  deriving DecidableEq, Repr

structure ClosePreparedStatementCommand where
  Command : Command
  StatementHandle : Int
  deriving DecidableEq, Repr

/-- What `send` accepts as its request argument (an `interface{}` in Go): one of the
command structures built in `connection.go`. -/
inductive Request where
  | login (c : LoginCommand)
  | auth (c : AuthCommand)
  | sql (c : SQLCommand)
  | createPrepared (c : CreatePreparedStatementCommand)
  | executePrepared (c : ExecutePreparedStatementCommand)
  | closePrepared (c : ClosePreparedStatementCommand)
  | plain (c : Command)
  deriving DecidableEq, Repr

/-- The discriminator carried by a request. `AuthCommand` is built without one. -/
def Request.kind : Request → Option String
  | .login c => some c.Command.Command
  | .auth _ => none
  | .sql c => some c.Command.Command
  | .createPrepared c => some c.Command.Command
  | .executePrepared c => some c.Command.Command
  | .closePrepared c => some c.Command.Command
  | .plain c => some c.Command

/-- How many requests of the given kind a list of requests holds. -/
def countKind (kind : String) (wire : List Request) : Nat :=
  (wire.filter (fun r => decide (r.kind = some kind))).length

/-- The decoded payload of a successful response, seen through each of the response
types `connection.go` passes to `send` as destination. -/
structure Payload where
  publicKey : PublicKeyResponse
  auth : AuthResponse
  prepared : CreatePreparedStatementResponse
  queries : SQLQueriesResponse
  deriving DecidableEq, Repr

/-- The websocket handle held by a connection. -/
structure WsConn where
  id : Nat
  deriving DecidableEq, Repr

/-- The `connection` structure. `Metadata` and `ws` are pointers (`none` is `nil`);
`Config` is set by the constructor and taken to be non-nil; `ctx` is never read in
this file and is left out. -/
structure connection where
  Config : Config
  SessionID : Int
  Metadata : Option AuthResponse
  ws : Option WsConn
  isClosed : Bool
  deriving DecidableEq, Repr

/-- A connection together with the record of what was written to its transport,
oldest command first. -/
structure World where
  conn : connection
  wire : List Request
  deriving DecidableEq, Repr

structure statement where
  connection : connection
  statementHandle : Int
  numInput : Int
  columns : List SQLQueryColumn
  deriving DecidableEq, Repr

structure transaction where
  connection : connection
  deriving DecidableEq, Repr

/-- The user record of `os/user`. -/
structure OsUser where
  Username : String
  deriving DecidableEq, Repr

/-- Everything outside `connection.go` that a call depends on.

* `server`: the reply of the remote side to the last command of the given record
  of commands (so the reply may depend on everything sent before);
* `encrypt`: for a public-key response and a password, the base64 text of the
  PKCS#1 v1.5 encryption (`hex.DecodeString`, `strconv.ParseUint`,
  `rsa.EncryptPKCS1v15` with `rand.Reader`, `base64.StdEncoding`), or `none` when
  the encryption reports an error;
* `currentUser`: the outcome of `user.Current()`, which returns a nil user
  together with the error when it fails;
* `toRow`, `toResult`: the result adapters, functions of the result set alone;
* `driverVersion`, `GOOS`, `runtimeVersion`: the client identity strings. -/
structure Env (Rows Result : Type) where
  server : List Request → Except Error Payload
  encrypt : PublicKeyResponse → String → Option String
  currentUser : Except Error OsUser
  toRow : SQLQueriesResponse → Except Error Rows
  toResult : SQLQueriesResponse → Except Error Result
  driverVersion : String
  GOOS : String
  runtimeVersion : String

variable {Rows Result : Type}

/-! ## The command/response engine -/

/-- Modelled from the spec: `connection.send` is not part of `connection.go`.
Section 4.1: serialise the command, perform exactly one write then one read on the
transport, decode the reply into the destination, and return an error instead when
the exchange or the reply reports failure; no side effect beyond the transport
write/read. Here the write appends the command to the record and the reply is the
one of `env.server`. Without a transport (`ws` nil) there is nothing to write to,
which Go reports as a nil-pointer fault. -/
def connection.send (env : Env Rows Result) (request : Request) (w : World) :
    Except Fault (Except Error Payload) × World :=
  match w.conn.ws with
  | none => (.error .nilPointerDereference, w)
  | some _ =>
    let wire := w.wire ++ [request]
    (.ok (env.server wire), { w with wire := wire })

/-! ## Statement execution -/

/-- Lines 124-129: one step of the loop, `data[j] = append(data[j], arg)` after the
inner slice at `j` was allocated when still nil. -/
def appendAt (data : List (Option (List Value))) (j : Nat) (arg : Value) :
    List (Option (List Value)) :=
  let data1 := if (data.getD j none).isNone then data.set j (some []) else data
  data1.set j (some ((data1.getD j none).getD [] ++ [arg]))

/-- Lines 124-129: `for i, arg := range args`, from index `i` on, with `n` the
number of columns. -/
def fillData (n : Nat) : Nat → List Value → List (Option (List Value)) →
    List (Option (List Value))
  | _, [], data => data
  | i, arg :: rest, data => fillData n (i + 1) rest (appendAt data (i % n) arg)

/-- Lines 118-141 of `executePreparedStatement`: the count check and the command
that is built. -/
def connection.executePreparedStatementCommand (s : CreatePreparedStatementResponse)
    (args : List Value) : Except Fault (Except Error ExecutePreparedStatementCommand) :=
  let columns := s.ParameterData.Columns
  if columns.length = 0 then .error .integerDivideByZero
  else if args.length % columns.length ≠ 0 then .ok (.error .ErrInvalidValuesCount)
  else
    let data := fillData columns.length 0 args (List.replicate columns.length none)
    match data with
    | [] => .error .indexOutOfRange
    | d0 :: _ =>
      .ok (.ok
        { Command := ⟨"executePreparedStatement"⟩
          StatementHandle := s.StatementHandle
          Columns := columns
          NumColumns := columns.length
          NumRows := (d0.getD []).length
          Data := data })

def connection.closePreparedStatement (env : Env Rows Result)
    (s : CreatePreparedStatementResponse) (w : World) :
    Except Fault (Option Error) × World :=
  match connection.send env
      (.closePrepared { Command := ⟨"closePreparedStatement"⟩
                        StatementHandle := s.StatementHandle }) w with
  | (.error f, w1) => (.error f, w1)
  | (.ok (.error err), w1) => (.ok (some err), w1)
  | (.ok (.ok _), w1) => (.ok none, w1)

/-- The Go function returns `(result, c.closePreparedStatement(s))` on its last
line: both the result and the error of the close exchange. The callers drop the
result when the error is not nil, so the pair is folded into one `Except`. -/
def connection.executePreparedStatement (env : Env Rows Result)
    (s : CreatePreparedStatementResponse) (args : List Value) (w : World) :
    Except Fault (Except Error SQLQueriesResponse) × World :=
  match connection.executePreparedStatementCommand s args with
  | .error f => (.error f, w)
  | .ok (.error err) => (.ok (.error err), w)
  | .ok (.ok command) =>
    match connection.send env (.executePrepared command) w with
    | (.error f, w1) => (.error f, w1)
    | (.ok (.error err), w1) => (.ok (.error err), w1)
    | (.ok (.ok p), w1) =>
      if p.queries.NumResults = 0 then (.ok (.error .ErrMalformData), w1)
      else
        match connection.closePreparedStatement env s w1 with
        | (.error f, w2) => (.error f, w2)
        | (.ok (some err), w2) => (.ok (.error err), w2)
        | (.ok none, w2) => (.ok (.ok p.queries), w2)

def connection.simpleExec (env : Env Rows Result) (query : String) (w : World) :
    Except Fault (Except Error SQLQueriesResponse) × World :=
  match connection.send env (.sql { Command := ⟨"execute"⟩, SQLText := query }) w with
  | (.error f, w1) => (.error f, w1)
  | (.ok (.error err), w1) => (.ok (.error err), w1)
  | (.ok (.ok p), w1) =>
    if p.queries.NumResults = 0 then (.ok (.error .ErrMalformData), w1)
    else (.ok (.ok p.queries), w1)

def connection.query (env : Env Rows Result) (query : String) (args : List Value)
    (w : World) : Except Fault (Except Error Rows) × World :=
  if w.conn.isClosed then (.ok (.error .ErrBadConn), w)
  else if args.length = 0 then
    match connection.simpleExec env query w with
    | (.error f, w1) => (.error f, w1)
    | (.ok (.error err), w1) => (.ok (.error err), w1)
    | (.ok (.ok result), w1) => (.ok (env.toRow result), w1)
  else
    match connection.send env
        (.createPrepared { Command := ⟨"createPreparedStatement"⟩, SQLText := query }) w with
    | (.error f, w1) => (.error f, w1)
    | (.ok (.error err), w1) => (.ok (.error err), w1)
    | (.ok (.ok p), w1) =>
      match connection.executePreparedStatement env p.prepared args w1 with
      | (.error f, w2) => (.error f, w2)
      | (.ok (.error err), w2) => (.ok (.error err), w2)
      | (.ok (.ok result), w2) => (.ok (env.toRow result), w2)

def connection.exec (env : Env Rows Result) (query : String) (args : List Value)
    (w : World) : Except Fault (Except Error Result) × World :=
  if w.conn.isClosed then (.ok (.error .ErrBadConn), w)
  else if args.length = 0 then
    match connection.simpleExec env query w with
    | (.error f, w1) => (.error f, w1)
    | (.ok (.error err), w1) => (.ok (.error err), w1)
    | (.ok (.ok result), w1) => (.ok (env.toResult result), w1)
  else
    match connection.send env
        (.createPrepared { Command := ⟨"createPreparedStatement"⟩, SQLText := query }) w with
    | (.error f, w1) => (.error f, w1)
    | (.ok (.error err), w1) => (.ok (.error err), w1)
    | (.ok (.ok p), w1) =>
      match connection.executePreparedStatement env p.prepared args w1 with
      | (.error f, w2) => (.error f, w2)
      | (.ok (.error err), w2) => (.ok (.error err), w2)
      | (.ok (.ok result), w2) => (.ok (env.toResult result), w2)

def connection.Exec (env : Env Rows Result) (query : String) (args : List Value)
    (w : World) : Except Fault (Except Error Result) × World :=
  connection.exec env query args w

def connection.Query (env : Env Rows Result) (query : String) (args : List Value)
    (w : World) : Except Fault (Except Error Rows) × World :=
  connection.query env query args w

/-! ## Lifecycle -/

def connection.Prepare (env : Env Rows Result) (query : String) (w : World) :
    Except Fault (Except Error statement) × World :=
  if w.conn.isClosed then (.ok (.error .ErrBadConn), w)
  else
    match connection.send env
        (.createPrepared { Command := ⟨"createPreparedStatement"⟩, SQLText := query }) w with
    | (.error f, w1) => (.error f, w1)
    | (.ok (.error err), w1) => (.ok (.error err), w1)
    | (.ok (.ok p), w1) =>
      (.ok (.ok { connection := w1.conn
                  statementHandle := p.prepared.StatementHandle
                  numInput := p.prepared.ParameterData.NumColumns
                  columns := p.prepared.ParameterData.Columns }), w1)

def connection.Begin (w : World) : Except Fault (Except Error transaction) × World :=
  if w.conn.isClosed then (.ok (.error .ErrBadConn), w)
  else if w.conn.Config.Autocommit then (.ok (.error .ErrAutocommitEnabled), w)
  else (.ok (.ok { connection := w.conn }), w)

/-- The flag is set before the exchange; `c.ws.Close()` and `c.ws = nil` release the
transport after it (the error of `ws.Close()` is dropped by the code). -/
def connection.close (env : Env Rows Result) (w : World) :
    Except Fault (Option Error) × World :=
  let w0 : World := { w with conn := { w.conn with isClosed := true } }
  match connection.send env (.plain { Command := "disconnect" }) w0 with
  | (.error f, w1) => (.error f, w1)
  | (.ok reply, w1) =>
    let w2 : World := { w1 with conn := { w1.conn with ws := none } }
    match reply with
    | .error err => (.ok (some err), w2)
    | .ok _ => (.ok none, w2)

def connection.Close (env : Env Rows Result) (w : World) :
    Except Fault (Option Error) × World :=
  connection.close env w

/-! ## Handshake -/

/-- Lines 252-265: the authentication command before the OS user is looked at;
`ClientOsUsername` has the zero value of a string. -/
def connection.authRequest (env : Env Rows Result) (c : connection) (b64Pass : String) :
    AuthCommand :=
  { Username := c.Config.User
    Password := b64Pass
    UseCompression := false
    ClientName := c.Config.ClientName
    DriverName := "go-exasol-client " ++ env.driverVersion
    ClientOs := env.GOOS
    ClientVersion := c.Config.ClientName
    ClientRuntime := env.runtimeVersion
    ClientOsUsername := ""
    Attributes := { Autocommit := c.Config.Autocommit } }

/-- Lines 267-269: `if osUser, err := user.Current(); err != nil` assigns
`osUser.Username`; on that branch `osUser` is the nil pointer. -/
def connection.withOsUsername (env : Env Rows Result) (authRequest : AuthCommand) :
    Except Fault AuthCommand :=
  match env.currentUser with
  | .error _ => .error .nilPointerDereference
  | .ok _ => .ok authRequest

def connection.login (env : Env Rows Result) (w : World) :
    Except Fault (Option Error) × World :=
  let loginCommand : LoginCommand :=
    { Command := ⟨"login"⟩
      ProtocolVersion := w.conn.Config.ApiVersion
      Attributes := { Autocommit := w.conn.Config.Autocommit } }
  match connection.send env (.login loginCommand) w with
  | (.error f, w1) => (.error f, w1)
  | (.ok (.error err), w1) => (.ok (some err), w1)
  | (.ok (.ok loginResponse), w1) =>
    match env.encrypt loginResponse.publicKey w1.conn.Config.Password with
    | none => (.ok (some .ErrBadConn), w1)
    | some b64Pass =>
      match connection.withOsUsername env (connection.authRequest env w1.conn b64Pass) with
      | .error f => (.error f, w1)
      | .ok authRequest =>
        match connection.send env (.auth authRequest) w1 with
        | (.error f, w2) => (.error f, w2)
        | (.ok (.error err), w2) => (.ok (some err), w2)
        | (.ok (.ok authResponse), w2) =>
          (.ok none,
            { w2 with conn := { w2.conn with SessionID := authResponse.auth.SessionID
                                             Metadata := some authResponse.auth
                                             isClosed := false } })

/-! ## Auxiliary definitions for the statements -/

/-- Every `n`-th element of a list, starting with the element at index `d`. -/
def everyNth (n : Nat) : Nat → List Value → List Value
  | _, [] => []
  | 0, a :: rest => a :: everyNth n (n - 1) rest
  | d + 1, _ :: rest => everyNth n d rest

/-- How many elements lie between the loop index `i` and the next index that falls
in column `c`. -/
def distTo (n i c : Nat) : Nat :=
  if i % n ≤ c then c - i % n else c + n - i % n

/-- An inner slice after the elements `l` were appended to it; it stays as it was
(possibly nil) when nothing was appended. -/
def joinCol (o : Option (List Value)) (l : List Value) : Option (List Value) :=
  if l = [] then o else some (o.getD [] ++ l)

/-! ## Concrete scenarios -/

/-- A prepare response declaring two parameter columns. -/
def demoPrepared : CreatePreparedStatementResponse :=
  { StatementHandle := 3
    ParameterData := { NumColumns := 2, Columns := [⟨"A", "DECIMAL"⟩, ⟨"B", "VARCHAR"⟩] } }

def demoPayload : Payload :=
  { publicKey := ⟨"c0ffee", "10001"⟩
    auth := ⟨7, "release 7.0"⟩
    prepared := demoPrepared
    queries := ⟨1, ["rowCount 2"]⟩ }

/-- The arguments `[1, "a", 2, "b"]`. -/
def demoArgs : List Value := [.int 1, .str "a", .int 2, .str "b"]

/-- An environment around a given server and a given outcome of `user.Current()`;
the adapters hand the result set through. -/
def demoEnv (server : List Request → Except Error Payload)
    (currentUser : Except Error OsUser) : Env SQLQueriesResponse SQLQueriesResponse :=
  { server := server
    encrypt := fun _ password => some ("rsa:" ++ password)
    currentUser := currentUser
    toRow := fun r => .ok r
    toResult := fun r => .ok r
    driverVersion := "0.1.0"
    GOOS := "linux"
    runtimeVersion := "go1.16" }

/-- A server that answers every command with success. -/
def okServer : List Request → Except Error Payload :=
  fun _ => .ok demoPayload

/-- A server that rejects every command. -/
def failServer : List Request → Except Error Payload :=
  fun _ => .error (.other "[42000] syntax error")

/-- A server that answers the first `m` commands with success and rejects every
later one. -/
def okThenFail (m : Nat) : List Request → Except Error Payload :=
  fun wire => if wire.length ≤ m then .ok demoPayload else .error (.other "[40000] failed")

def demoConfig : Config :=
  { User := "sys", Password := "exasol", ApiVersion := 1, Autocommit := false, ClientName := "app" }

/-- An open connection on which nothing was sent yet. -/
def openWorld : World :=
  { conn := { Config := demoConfig, SessionID := 7, Metadata := some ⟨7, "release 7.0"⟩
              ws := some ⟨1⟩, isClosed := false }
    wire := [] }

/-- A connection before the handshake: it holds a transport, the closed flag is set
and there is no session. -/
def unopenedWorld : World :=
  { conn := { Config := demoConfig, SessionID := 0, Metadata := none
              ws := some ⟨1⟩, isClosed := true }
    wire := [] }

/-- An open connection whose configuration has autocommit enabled. -/
def autocommitWorld : World :=
  { openWorld with conn := { openWorld.conn with
      Config := { demoConfig with Autocommit := true } } }

/-- A prepare response for a statement without placeholders: no parameter column. -/
def noParamPayload : Payload :=
  { demoPayload with prepared := { StatementHandle := 4
                                   ParameterData := { NumColumns := 0, Columns := [] } } }

def noParamServer : List Request → Except Error Payload :=
  fun _ => .ok noParamPayload

/-! ## Calls on a connection -/

/-- The statement-executing and transaction-starting calls of the driver interface. -/
inductive Call where
  | Exec (query : String) (args : List Value)
  | Query (query : String) (args : List Value)
  | Prepare (query : String)
  | Begin

/-- The error part of an outcome: `none` when the call returned a value. -/
def errorOf {α : Type} : Except Fault (Except Error α) → Except Fault (Option Error)
  | .error f => .error f
  | .ok (.error err) => .ok (some err)
  | .ok (.ok _) => .ok none

/-- One call: the error it returned and the state it left. -/
def Call.run (env : Env Rows Result) : Call → World → Except Fault (Option Error) × World
  | .Exec query args, w => (errorOf (connection.Exec env query args w).1,
                            (connection.Exec env query args w).2)
  | .Query query args, w => (errorOf (connection.Query env query args w).1,
                             (connection.Query env query args w).2)
  | .Prepare query, w => (errorOf (connection.Prepare env query w).1,
                          (connection.Prepare env query w).2)
  | .Begin, w => (errorOf (connection.Begin w).1, (connection.Begin w).2)

/-- The state after a sequence of calls. -/
def runCalls (env : Env Rows Result) : List Call → World → World
  | [], w => w
  | call :: rest, w => runCalls env rest (call.run env w).2

/-! ## The argument matrix -/

theorem everyNth_getElem? (n : Nat) (hn : 1 ≤ n) (args : List Value) :
    ∀ (d r : Nat), (everyNth n d args)[r]? = args[r * n + d]? := by
  induction args with
  | nil => intro d r; simp [everyNth]
  | cons a rest ih =>
    intro d r
    cases d with
    | zero =>
      cases r with
      | zero => simp [everyNth]
      | succ r =>
        have h : (r + 1) * n + 0 = (r * n + (n - 1)) + 1 := by
          rw [Nat.succ_mul]; omega
        simp only [everyNth, List.getElem?_cons_succ, h, ih]
    | succ d =>
      have h : r * n + (d + 1) = (r * n + d) + 1 := by omega
      simp only [everyNth, h, List.getElem?_cons_succ, ih]

theorem succ_mod_cases (n i : Nat) (hn : 1 ≤ n) :
    (i + 1) % n = if i % n + 1 = n then 0 else i % n + 1 := by
  have hlt : i % n < n := Nat.mod_lt i hn
  have hdiv : n * (i / n) + i % n = i := Nat.div_add_mod i n
  split
  · next h =>
    have : i + 1 = n * (i / n + 1) := by rw [Nat.mul_add]; omega
    rw [this]; exact Nat.mul_mod_right n _
  · next h =>
    have h1 : i + 1 = (i % n + 1) + n * (i / n) := by omega
    rw [h1, Nat.add_mul_mod_self_left]
    exact Nat.mod_eq_of_lt (by omega)

theorem appendAt_length (data : List (Option (List Value))) (j : Nat) (arg : Value) :
    (appendAt data j arg).length = data.length := by
  unfold appendAt
  split <;> simp

theorem appendAt_getD (data : List (Option (List Value))) (j c : Nat) (arg : Value)
    (hj : j < data.length) :
    (appendAt data j arg).getD c none =
      if c = j then some ((data.getD j none).getD [] ++ [arg]) else data.getD c none := by
  obtain ⟨x, hx⟩ : ∃ x, data[j]? = some x := ⟨data[j], List.getElem?_eq_getElem hj⟩
  unfold appendAt
  by_cases hc : c = j
  · subst hc
    cases x with
    | none => simp [List.getD_eq_getElem?_getD, List.getElem?_set, hx, hj]
    | some l => simp [List.getD_eq_getElem?_getD, List.getElem?_set, hx, hj]
  · have hc2 : ¬ j = c := fun h => hc h.symm
    cases x with
    | none => simp [List.getD_eq_getElem?_getD, List.getElem?_set, hx, hc, hc2]
    | some l => simp [List.getD_eq_getElem?_getD, List.getElem?_set, hx, hc, hc2]

theorem fillData_length (n : Nat) (args : List Value) :
    ∀ (i : Nat) (data : List (Option (List Value))),
      (fillData n i args data).length = data.length := by
  induction args with
  | nil => intro i data; simp [fillData]
  | cons a rest ih => intro i data; simp [fillData, ih, appendAt_length]

theorem distTo_hit (n i c : Nat) (hn : 1 ≤ n) (h : c = i % n) :
    distTo n i c = 0 ∧ distTo n (i + 1) c = n - 1 := by
  have hlt : i % n < n := Nat.mod_lt i hn
  unfold distTo
  rw [succ_mod_cases n i hn]
  constructor
  · split <;> omega
  · split_ifs <;> omega

theorem distTo_miss (n i c : Nat) (hn : 1 ≤ n) (hc : c < n) (h : ¬ c = i % n) :
    distTo n i c = distTo n (i + 1) c + 1 := by
  have hlt : i % n < n := Nat.mod_lt i hn
  unfold distTo
  rw [succ_mod_cases n i hn]
  split_ifs <;> omega

theorem fillData_getD (n : Nat) (hn : 1 ≤ n) (c : Nat) (hc : c < n) (args : List Value) :
    ∀ (i : Nat) (data : List (Option (List Value))), data.length = n →
      (fillData n i args data).getD c none =
        joinCol (data.getD c none) (everyNth n (distTo n i c) args) := by
  induction args with
  | nil => intro i data _; simp [fillData, everyNth, joinCol]
  | cons a rest ih =>
    intro i data hlen
    have hj : i % n < data.length := by rw [hlen]; exact Nat.mod_lt i hn
    simp only [fillData]
    rw [ih (i + 1) (appendAt data (i % n) a) (by rw [appendAt_length]; exact hlen),
      appendAt_getD data (i % n) c a hj]
    by_cases h : c = i % n
    · obtain ⟨h0, h1⟩ := distTo_hit n i c hn h
      rw [h0, h1, if_pos h, ← h]
      simp [everyNth, joinCol]
    · rw [distTo_miss n i c hn hc h, if_neg h]
      simp [everyNth]

/-- The matrix built by the loop of `executePreparedStatement`, column by column. -/
theorem fillData_column (n k : Nat) (hn : 1 ≤ n) (hk : 1 ≤ k) (args : List Value)
    (hlen : args.length = k * n) (c : Nat) (hc : c < n) :
    ∃ col, (fillData n 0 args (List.replicate n none))[c]? = some (some col) ∧
      col.length = k ∧ ∀ r, r < k → r * n + c < args.length ∧ col[r]? = args[r * n + c]? := by
  have hget := fillData_getD n hn c hc args 0 (List.replicate n none) (by simp)
  have hd : distTo n 0 c = c := by simp [distTo]
  have hidx : ∀ r, r < k → r * n + c < args.length := by
    intro r hr
    have : (r + 1) * n ≤ k * n := Nat.mul_le_mul_right n hr
    rw [Nat.succ_mul] at this
    omega
  have hcol := everyNth_getElem? n hn args c
  have hlow : k - 1 < (everyNth n c args).length := by
    have h1 := hcol (k - 1)
    have h2 := hidx (k - 1) (by omega)
    rw [List.getElem?_eq_getElem h2] at h1
    by_contra hcon
    rw [List.getElem?_eq_none (by omega)] at h1
    exact absurd h1 (by simp)
  have hhigh : (everyNth n c args).length ≤ k := by
    have h1 := hcol k
    have h2 : args[k * n + c]? = none := List.getElem?_eq_none (by omega)
    rw [h2] at h1
    exact List.getElem?_eq_none_iff.mp h1
  have hne : everyNth n c args ≠ [] := by
    intro h0
    rw [h0] at hlow
    simp at hlow
  refine ⟨everyNth n c args, ?_, by omega, fun r hr => ⟨hidx r hr, hcol r⟩⟩
  have hlenD : c < (fillData n 0 args (List.replicate n none)).length := by
    rw [fillData_length]; simpa using hc
  rw [List.getD_eq_getElem?_getD, List.getElem?_eq_getElem hlenD] at hget
  rw [List.getElem?_eq_getElem hlenD]
  simp only [Option.getD_some] at hget
  rw [hget, hd]
  simp [joinCol, hne, List.getD_eq_getElem?_getD, hc]

/-! ## The engine on a connection that holds a transport -/

theorem send_some (env : Env Rows Result) (request : Request) (w : World) (t : WsConn)
    (hws : w.conn.ws = some t) :
    connection.send env request w =
      (.ok (env.server (w.wire ++ [request])), { w with wire := w.wire ++ [request] }) := by
  simp [connection.send, hws]

theorem closePreparedStatement_some (env : Env Rows Result)
    (s : CreatePreparedStatementResponse) (w : World) (t : WsConn)
    (hws : w.conn.ws = some t) :
    connection.closePreparedStatement env s w =
      ((match env.server (w.wire ++ [.closePrepared ⟨⟨"closePreparedStatement"⟩, s.StatementHandle⟩]) with
        | .error err => .ok (some err)
        | .ok _ => .ok none),
       { w with wire := w.wire ++ [.closePrepared ⟨⟨"closePreparedStatement"⟩, s.StatementHandle⟩] }) := by
  unfold connection.closePreparedStatement
  rw [send_some env _ w t hws]
  cases env.server (w.wire ++ [.closePrepared ⟨⟨"closePreparedStatement"⟩, s.StatementHandle⟩]) <;> rfl

theorem executePreparedStatementCommand_ok (s : CreatePreparedStatementResponse)
    (args : List Value) (n k : Nat) (hn : 1 ≤ n) (hk : 1 ≤ k)
    (hcols : s.ParameterData.Columns.length = n) (hlen : args.length = k * n) :
    connection.executePreparedStatementCommand s args =
      .ok (.ok { Command := ⟨"executePreparedStatement"⟩
                 StatementHandle := s.StatementHandle
                 Columns := s.ParameterData.Columns
                 NumColumns := n
                 NumRows := k
                 Data := fillData n 0 args (List.replicate n none) }) := by
  obtain ⟨col, hcol, hcollen, _⟩ := fillData_column n k hn hk args hlen 0 (by omega)
  have hmod : args.length % n = 0 := by rw [hlen]; exact Nat.mul_mod_left k n
  have hn0 : ¬ n = 0 := by omega
  unfold connection.executePreparedStatementCommand
  simp only [hcols, hn0, hmod, if_false, ne_eq, not_true_eq_false]
  cases hdata : fillData n 0 args (List.replicate n none) with
  | nil => rw [hdata] at hcol; simp at hcol
  | cons d0 rest =>
    rw [hdata] at hcol
    simp only [List.getElem?_cons_zero, Option.some.injEq] at hcol
    subst hcol
    simp [hcollen]

theorem executePreparedStatement_some (env : Env Rows Result)
    (s : CreatePreparedStatementResponse) (args : List Value) (w : World) (t : WsConn)
    (command : ExecutePreparedStatementCommand) (hws : w.conn.ws = some t)
    (hcmd : connection.executePreparedStatementCommand s args = .ok (.ok command)) :
    connection.executePreparedStatement env s args w =
      match env.server (w.wire ++ [.executePrepared command]) with
      | .error err => (.ok (.error err), { w with wire := w.wire ++ [.executePrepared command] })
      | .ok p =>
        if p.queries.NumResults = 0 then
          (.ok (.error .ErrMalformData), { w with wire := w.wire ++ [.executePrepared command] })
        else
          ((match env.server (w.wire ++ [.executePrepared command,
                .closePrepared ⟨⟨"closePreparedStatement"⟩, s.StatementHandle⟩]) with
            | .error err => .ok (.error err)
            | .ok _ => .ok (.ok p.queries)),
           { w with wire := w.wire ++ [.executePrepared command,
                .closePrepared ⟨⟨"closePreparedStatement"⟩, s.StatementHandle⟩] }) := by
  unfold connection.executePreparedStatement
  rw [hcmd]
  simp only [send_some env _ w t hws]
  cases hrep : env.server (w.wire ++ [.executePrepared command]) with
  | error err => rfl
  | ok p =>
    simp only []
    split
    · rfl
    · rw [closePreparedStatement_some env s _ t (by simpa using hws)]
      simp only [List.append_assoc, List.singleton_append]
      cases env.server (w.wire ++ [.executePrepared command,
                .closePrepared ⟨⟨"closePreparedStatement"⟩, s.StatementHandle⟩]) <;> rfl

/-! ## Properties of the prepared path -/

/-- C1: for `n ≥ 1` declared columns and an argument list of length `k * n` with
`k ≥ 1`, `executePreparedStatement` builds, and writes to the transport as its first
command, an `executePreparedStatement` command with `NumColumns = n`, `NumRows = k`
and a `Data` matrix of exactly `n` non-nil columns, each of length `k`, in which
`Data[c][r] = args[r * n + c]`. -/
theorem executePreparedStatement_column_major (env : Env Rows Result) (w : World)
    (t : WsConn) (s : CreatePreparedStatementResponse) (args : List Value) (n k : Nat)
    (hn : 1 ≤ n) (hk : 1 ≤ k) (hcols : s.ParameterData.Columns.length = n)
    (hlen : args.length = k * n) (hws : w.conn.ws = some t) :
    ∃ (data : List (Option (List Value))) (tail : List Request),
      connection.executePreparedStatementCommand s args =
        .ok (.ok { Command := ⟨"executePreparedStatement"⟩
                   StatementHandle := s.StatementHandle
                   Columns := s.ParameterData.Columns
                   NumColumns := n
                   NumRows := k
                   Data := data }) ∧
      (connection.executePreparedStatement env s args w).2.wire =
        w.wire ++ Request.executePrepared
          { Command := ⟨"executePreparedStatement"⟩
            StatementHandle := s.StatementHandle
            Columns := s.ParameterData.Columns
            NumColumns := n
            NumRows := k
            Data := data } :: tail ∧
      data.length = n ∧
      ∀ c, c < n → ∃ col, data[c]? = some (some col) ∧ col.length = k ∧
        ∀ r, r < k → r * n + c < args.length ∧ col[r]? = args[r * n + c]? := by
  have hcmd := executePreparedStatementCommand_ok s args n k hn hk hcols hlen
  have hrun := executePreparedStatement_some env s args w t _ hws hcmd
  refine ⟨fillData n 0 args (List.replicate n none), ?_, hcmd, ?_, ?_, ?_⟩
  · exact
      match env.server (w.wire ++ [.executePrepared
          { Command := ⟨"executePreparedStatement"⟩
            StatementHandle := s.StatementHandle
            Columns := s.ParameterData.Columns
            NumColumns := n
            NumRows := k
            Data := fillData n 0 args (List.replicate n none) }]) with
      | .error _ => []
      | .ok p =>
        if p.queries.NumResults = 0 then []
        else [.closePrepared ⟨⟨"closePreparedStatement"⟩, s.StatementHandle⟩]
  · rw [hrun]
    cases env.server (w.wire ++ [.executePrepared
          { Command := ⟨"executePreparedStatement"⟩
            StatementHandle := s.StatementHandle
            Columns := s.ParameterData.Columns
            NumColumns := n
            NumRows := k
            Data := fillData n 0 args (List.replicate n none) }]) with
    | error err => rfl
    | ok p =>
      simp only []
      split <;> simp
  · rw [fillData_length]; simp
  · intro c hc
    exact fillData_column n k hn hk args hlen c hc

/-- The scenario of the specification: two columns and the arguments
`[1, "a", 2, "b"]` give the matrix `[[1, 2], ["a", "b"]]` with two rows. -/
theorem executePreparedStatement_column_major_witness :
    connection.executePreparedStatementCommand demoPrepared demoArgs =
        .ok (.ok { Command := ⟨"executePreparedStatement"⟩
                   StatementHandle := 3
                   Columns := [⟨"A", "DECIMAL"⟩, ⟨"B", "VARCHAR"⟩]
                   NumColumns := 2
                   NumRows := 2
                   Data := [some [.int 1, .int 2], some [.str "a", .str "b"]] }) ∧
    ∃ (data : List (Option (List Value))) (tail : List Request),
      connection.executePreparedStatementCommand demoPrepared demoArgs =
        .ok (.ok { Command := ⟨"executePreparedStatement"⟩
                   StatementHandle := demoPrepared.StatementHandle
                   Columns := demoPrepared.ParameterData.Columns
                   NumColumns := 2
                   NumRows := 2
                   Data := data }) ∧
      (connection.executePreparedStatement (demoEnv okServer (.ok ⟨"alice"⟩))
          demoPrepared demoArgs openWorld).2.wire =
        openWorld.wire ++ Request.executePrepared
          { Command := ⟨"executePreparedStatement"⟩
            StatementHandle := demoPrepared.StatementHandle
            Columns := demoPrepared.ParameterData.Columns
            NumColumns := 2
            NumRows := 2
            Data := data } :: tail ∧
      data.length = 2 ∧
      ∀ c, c < 2 → ∃ col, data[c]? = some (some col) ∧ col.length = 2 ∧
        ∀ r, r < 2 → r * 2 + c < demoArgs.length ∧ col[r]? = demoArgs[r * 2 + c]? :=
  ⟨rfl,
   executePreparedStatement_column_major (demoEnv okServer (.ok ⟨"alice"⟩)) openWorld ⟨1⟩
     demoPrepared demoArgs 2 2 (by decide) (by decide) (by decide) (by decide) rfl⟩

/-! ## The two execution paths -/

theorem simpleExec_some (env : Env Rows Result) (query : String) (w : World) (t : WsConn)
    (hws : w.conn.ws = some t) :
    connection.simpleExec env query w =
      ((match env.server (w.wire ++ [.sql ⟨⟨"execute"⟩, query⟩]) with
        | .error err => .ok (.error err)
        | .ok p => if p.queries.NumResults = 0 then .ok (.error .ErrMalformData)
                   else .ok (.ok p.queries)),
       { w with wire := w.wire ++ [.sql ⟨⟨"execute"⟩, query⟩] }) := by
  unfold connection.simpleExec
  rw [send_some env _ w t hws]
  cases env.server (w.wire ++ [.sql ⟨⟨"execute"⟩, query⟩]) with
  | error err => rfl
  | ok p =>
    simp only []
    split <;> rfl

theorem exec_prepared (env : Env Rows Result) (query : String) (args : List Value)
    (w : World) (t : WsConn) (hopen : w.conn.isClosed = false) (hws : w.conn.ws = some t)
    (hargs : args ≠ []) :
    connection.exec env query args w =
      match env.server (w.wire ++ [.createPrepared ⟨⟨"createPreparedStatement"⟩, query⟩]) with
      | .error err =>
        (.ok (.error err),
          { w with wire := w.wire ++ [.createPrepared ⟨⟨"createPreparedStatement"⟩, query⟩] })
      | .ok p =>
        match connection.executePreparedStatement env p.prepared args
            { w with wire := w.wire ++ [.createPrepared ⟨⟨"createPreparedStatement"⟩, query⟩] } with
        | (.error f, w2) => (.error f, w2)
        | (.ok (.error err), w2) => (.ok (.error err), w2)
        | (.ok (.ok result), w2) => (.ok (env.toResult result), w2) := by
  have hlen : ¬ args.length = 0 := by
    intro h; exact hargs (List.length_eq_zero.mp h)
  unfold connection.exec
  simp only [hopen, hlen, if_false, Bool.false_eq_true]
  rw [send_some env _ w t hws]
  cases env.server (w.wire ++ [.createPrepared ⟨⟨"createPreparedStatement"⟩, query⟩]) <;> rfl

theorem query_prepared (env : Env Rows Result) (query : String) (args : List Value)
    (w : World) (t : WsConn) (hopen : w.conn.isClosed = false) (hws : w.conn.ws = some t)
    (hargs : args ≠ []) :
    connection.query env query args w =
      match env.server (w.wire ++ [.createPrepared ⟨⟨"createPreparedStatement"⟩, query⟩]) with
      | .error err =>
        (.ok (.error err),
          { w with wire := w.wire ++ [.createPrepared ⟨⟨"createPreparedStatement"⟩, query⟩] })
      | .ok p =>
        match connection.executePreparedStatement env p.prepared args
            { w with wire := w.wire ++ [.createPrepared ⟨⟨"createPreparedStatement"⟩, query⟩] } with
        | (.error f, w2) => (.error f, w2)
        | (.ok (.error err), w2) => (.ok (.error err), w2)
        | (.ok (.ok result), w2) => (.ok (env.toRow result), w2) := by
  have hlen : ¬ args.length = 0 := by
    intro h; exact hargs (List.length_eq_zero.mp h)
  unfold connection.query
  simp only [hopen, hlen, if_false, Bool.false_eq_true]
  rw [send_some env _ w t hws]
  cases env.server (w.wire ++ [.createPrepared ⟨⟨"createPreparedStatement"⟩, query⟩]) <;> rfl

/-- C2: on an open connection, whatever the server answers, `Exec` and `Query` with
an empty argument list write exactly one command to the transport, the `execute`
command carrying the raw SQL text; the result is the error of that exchange,
`ErrMalformData` for a reply with zero results, and otherwise the adapted result
set. -/
theorem empty_args_single_execute (env : Env Rows Result) (query : String) (w : World)
    (t : WsConn) (hopen : w.conn.isClosed = false) (hws : w.conn.ws = some t) :
    (connection.Exec env query [] w).2 =
        { w with wire := w.wire ++ [.sql ⟨⟨"execute"⟩, query⟩] } ∧
      (connection.Query env query [] w).2 =
        { w with wire := w.wire ++ [.sql ⟨⟨"execute"⟩, query⟩] } ∧
      (connection.Exec env query [] w).1 =
        (match env.server (w.wire ++ [.sql ⟨⟨"execute"⟩, query⟩]) with
          | .error err => .ok (.error err)
          | .ok p => if p.queries.NumResults = 0 then .ok (.error .ErrMalformData)
                     else .ok (env.toResult p.queries)) ∧
      (connection.Query env query [] w).1 =
        (match env.server (w.wire ++ [.sql ⟨⟨"execute"⟩, query⟩]) with
          | .error err => .ok (.error err)
          | .ok p => if p.queries.NumResults = 0 then .ok (.error .ErrMalformData)
                     else .ok (env.toRow p.queries)) := by
  unfold connection.Exec connection.Query connection.exec connection.query
  simp only [hopen, List.length_nil, if_true, if_false, Bool.false_eq_true]
  rw [simpleExec_some env query w t hws]
  cases env.server (w.wire ++ [.sql ⟨⟨"execute"⟩, query⟩]) with
  | error err => exact ⟨rfl, rfl, rfl, rfl⟩
  | ok p =>
    simp only []
    by_cases h : p.queries.NumResults = 0
    · simp [h]
    · simp [h]

/-- `SELECT 1` without arguments on an open connection: one `execute` command. -/
theorem empty_args_single_execute_witness :
    (openWorld.conn.isClosed = false ∧ openWorld.conn.ws = some ⟨1⟩) ∧
    (connection.Exec (demoEnv okServer (.ok ⟨"alice"⟩)) "SELECT 1" [] openWorld).2.wire =
      [.sql ⟨⟨"execute"⟩, "SELECT 1"⟩] ∧
    (connection.Query (demoEnv failServer (.ok ⟨"alice"⟩)) "SELECT 1" [] openWorld).2.wire =
      [.sql ⟨⟨"execute"⟩, "SELECT 1"⟩] :=
  ⟨⟨rfl, rfl⟩,
   congrArg World.wire
     (empty_args_single_execute (demoEnv okServer (.ok ⟨"alice"⟩)) "SELECT 1" openWorld ⟨1⟩
       rfl rfl).1,
   congrArg World.wire
     (empty_args_single_execute (demoEnv failServer (.ok ⟨"alice"⟩)) "SELECT 1" openWorld ⟨1⟩
       rfl rfl).2.1⟩

theorem executePreparedStatement_mismatch (env : Env Rows Result)
    (s : CreatePreparedStatementResponse) (args : List Value) (w : World)
    (hn : 1 ≤ s.ParameterData.Columns.length)
    (hmod : args.length % s.ParameterData.Columns.length ≠ 0) :
    connection.executePreparedStatement env s args w =
      (.ok (.error .ErrInvalidValuesCount), w) := by
  have hn0 : ¬ s.ParameterData.Columns.length = 0 := by omega
  unfold connection.executePreparedStatement connection.executePreparedStatementCommand
  simp [hn0, hmod]

/-- C4: on an open connection, when the prepare response declares `n ≥ 1` parameter
columns and the number of arguments is not a multiple of `n`, `Exec` and `Query`
return `ErrInvalidValuesCount`, and the only command written during the call is the
initial `createPreparedStatement`. -/
theorem invalid_count_only_prepare (env : Env Rows Result) (query : String)
    (args : List Value) (w : World) (t : WsConn) (p : Payload)
    (hopen : w.conn.isClosed = false) (hws : w.conn.ws = some t)
    (hprep : env.server (w.wire ++ [.createPrepared ⟨⟨"createPreparedStatement"⟩, query⟩]) =
      .ok p)
    (hn : 1 ≤ p.prepared.ParameterData.Columns.length)
    (hmod : args.length % p.prepared.ParameterData.Columns.length ≠ 0) :
    connection.Exec env query args w =
        (.ok (.error .ErrInvalidValuesCount),
          { w with wire := w.wire ++ [.createPrepared ⟨⟨"createPreparedStatement"⟩, query⟩] }) ∧
      connection.Query env query args w =
        (.ok (.error .ErrInvalidValuesCount),
          { w with wire := w.wire ++ [.createPrepared ⟨⟨"createPreparedStatement"⟩, query⟩] }) := by
  have hargs : args ≠ [] := by
    intro h; rw [h] at hmod; simp at hmod
  unfold connection.Exec connection.Query
  rw [exec_prepared env query args w t hopen hws hargs,
    query_prepared env query args w t hopen hws hargs, hprep]
  simp [executePreparedStatement_mismatch env p.prepared args _ hn hmod]

/-- Three arguments for two declared columns. -/
theorem invalid_count_only_prepare_witness :
    connection.Exec (demoEnv okServer (.ok ⟨"alice"⟩)) "INSERT INTO t VALUES (?,?)"
        [.int 1, .str "a", .int 2] openWorld =
      (.ok (.error .ErrInvalidValuesCount),
        { openWorld with wire := openWorld.wire ++
            [.createPrepared ⟨⟨"createPreparedStatement"⟩, "INSERT INTO t VALUES (?,?)"⟩] }) ∧
    connection.Query (demoEnv okServer (.ok ⟨"alice"⟩)) "INSERT INTO t VALUES (?,?)"
        [.int 1, .str "a", .int 2] openWorld =
      (.ok (.error .ErrInvalidValuesCount),
        { openWorld with wire := openWorld.wire ++
            [.createPrepared ⟨⟨"createPreparedStatement"⟩, "INSERT INTO t VALUES (?,?)"⟩] }) :=
  invalid_count_only_prepare (demoEnv okServer (.ok ⟨"alice"⟩)) "INSERT INTO t VALUES (?,?)"
    [.int 1, .str "a", .int 2] openWorld ⟨1⟩ demoPayload rfl rfl rfl (by decide) (by decide)

/-! ## Lifecycle -/

theorem call_on_closed (env : Env Rows Result) (call : Call) (w : World)
    (hclosed : w.conn.isClosed = true) :
    call.run env w = (.ok (some .ErrBadConn), w) := by
  cases call <;>
    simp [Call.run, connection.Exec, connection.Query, connection.exec, connection.query,
      connection.Prepare, connection.Begin, hclosed, errorOf]

theorem runCalls_on_closed (env : Env Rows Result) (calls : List Call) :
    ∀ (w : World), w.conn.isClosed = true → runCalls env calls w = w := by
  induction calls with
  | nil => intro w _; rfl
  | cons call rest ih =>
    intro w hclosed
    simp only [runCalls, call_on_closed env call w hclosed]
    exact ih w hclosed

theorem close_isClosed (env : Env Rows Result) (w : World) :
    (connection.Close env w).2.conn.isClosed = true := by
  unfold connection.Close connection.close connection.send
  cases h : w.conn.ws with
  | none => simp [h]
  | some t =>
    simp only [h]
    cases env.server (w.wire ++ [.plain ⟨"disconnect"⟩]) <;> rfl

/-- C5: once `Close` has been called on a connection (whatever its state and
configuration were, and whatever the outcome of `Close`), the closed flag is set,
and every later `Exec`, `Query`, `Prepare` or `Begin` call, after any sequence of
such calls, returns an error (`driver.ErrBadConn`) and leaves the state as `Close`
left it: nothing is written to the transport. -/
theorem calls_after_close_fail (env : Env Rows Result) (w : World) (calls : List Call)
    (call : Call) :
    (connection.Close env w).2.conn.isClosed = true ∧
      call.run env (runCalls env calls (connection.Close env w).2) =
        (.ok (some .ErrBadConn), (connection.Close env w).2) ∧
      (call.run env (runCalls env calls (connection.Close env w).2)).2.wire =
        (connection.Close env w).2.wire := by
  have hclosed := close_isClosed env w
  rw [runCalls_on_closed env calls _ hclosed, call_on_closed env call _ hclosed]
  exact ⟨hclosed, rfl, rfl⟩

/-- C6: on an open connection `Begin` returns `ErrAutocommitEnabled` when the
autocommit flag of the configuration is set, and a transaction bound to the
connection when it is not; in both cases the state, the record of the transport
included, is unchanged. -/
theorem begin_on_open (w : World) (hopen : w.conn.isClosed = false) :
    (w.conn.Config.Autocommit = true →
        connection.Begin w = (.ok (.error .ErrAutocommitEnabled), w)) ∧
      (w.conn.Config.Autocommit = false →
        connection.Begin w = (.ok (.ok { connection := w.conn }), w)) := by
  constructor
  · intro h; simp [connection.Begin, hopen, h]
  · intro h; simp [connection.Begin, hopen, h]

theorem begin_on_open_witness :
    connection.Begin autocommitWorld = (.ok (.error .ErrAutocommitEnabled), autocommitWorld) ∧
      connection.Begin openWorld = (.ok (.ok { connection := openWorld.conn }), openWorld) :=
  ⟨(begin_on_open autocommitWorld rfl).1 rfl, (begin_on_open openWorld rfl).2 rfl⟩

/-- C8: on a connection that holds a transport, whatever the outcome of the
disconnect exchange, `Close` writes exactly one command, `disconnect`, leaves the
connection closed with the transport released, changes no other field, and returns
exactly the error of the disconnect exchange (`nil` when it succeeded). -/
theorem close_disconnects (env : Env Rows Result) (w : World) (t : WsConn)
    (hws : w.conn.ws = some t) :
    connection.Close env w =
      ((match env.server (w.wire ++ [.plain ⟨"disconnect"⟩]) with
        | .error err => .ok (some err)
        | .ok _ => .ok none),
       { conn := { w.conn with isClosed := true, ws := none }
         wire := w.wire ++ [.plain ⟨"disconnect"⟩] }) := by
  unfold connection.Close connection.close
  simp only []
  rw [send_some env _ _ t (by simpa using hws)]
  cases env.server (w.wire ++ [.plain ⟨"disconnect"⟩]) <;> rfl

/-- A disconnect that the server rejects: the error is returned and the connection
is closed all the same. -/
theorem close_disconnects_witness :
    connection.Close (demoEnv failServer (.ok ⟨"alice"⟩)) openWorld =
        (.ok (some (.other "[42000] syntax error")),
          { conn := { openWorld.conn with isClosed := true, ws := none }
            wire := [.plain ⟨"disconnect"⟩] }) ∧
      connection.Close (demoEnv okServer (.ok ⟨"alice"⟩)) openWorld =
        (.ok none,
          { conn := { openWorld.conn with isClosed := true, ws := none }
            wire := [.plain ⟨"disconnect"⟩] }) :=
  ⟨close_disconnects (demoEnv failServer (.ok ⟨"alice"⟩)) openWorld ⟨1⟩ rfl,
   close_disconnects (demoEnv okServer (.ok ⟨"alice"⟩)) openWorld ⟨1⟩ rfl⟩

/-! ## Handshake -/

theorem login_some (env : Env Rows Result) (w : World) (t : WsConn)
    (hws : w.conn.ws = some t) :
    connection.login env w =
      match env.server (w.wire ++ [.login ⟨⟨"login"⟩, w.conn.Config.ApiVersion,
          ⟨w.conn.Config.Autocommit⟩⟩]) with
      | .error err =>
        (.ok (some err), { w with wire := w.wire ++ [.login ⟨⟨"login"⟩,
            w.conn.Config.ApiVersion, ⟨w.conn.Config.Autocommit⟩⟩] })
      | .ok loginResponse =>
        match env.encrypt loginResponse.publicKey w.conn.Config.Password with
        | none =>
          (.ok (some .ErrBadConn), { w with wire := w.wire ++ [.login ⟨⟨"login"⟩,
              w.conn.Config.ApiVersion, ⟨w.conn.Config.Autocommit⟩⟩] })
        | some b64Pass =>
          match env.currentUser with
          | .error _ =>
            (.error .nilPointerDereference, { w with wire := w.wire ++ [.login ⟨⟨"login"⟩,
                w.conn.Config.ApiVersion, ⟨w.conn.Config.Autocommit⟩⟩] })
          | .ok _ =>
            match env.server (w.wire ++ [.login ⟨⟨"login"⟩, w.conn.Config.ApiVersion,
                ⟨w.conn.Config.Autocommit⟩⟩, .auth (connection.authRequest env w.conn b64Pass)]) with
            | .error err =>
              (.ok (some err), { w with wire := w.wire ++ [.login ⟨⟨"login"⟩,
                  w.conn.Config.ApiVersion, ⟨w.conn.Config.Autocommit⟩⟩,
                  .auth (connection.authRequest env w.conn b64Pass)] })
            | .ok authResponse =>
              (.ok none,
                { conn := { w.conn with SessionID := authResponse.auth.SessionID
                                        Metadata := some authResponse.auth
                                        isClosed := false }
                  wire := w.wire ++ [.login ⟨⟨"login"⟩, w.conn.Config.ApiVersion,
                    ⟨w.conn.Config.Autocommit⟩⟩,
                    .auth (connection.authRequest env w.conn b64Pass)] }) := by
  unfold connection.login
  simp only []
  rw [send_some env _ w t hws]
  cases env.server (w.wire ++ [.login ⟨⟨"login"⟩, w.conn.Config.ApiVersion,
          ⟨w.conn.Config.Autocommit⟩⟩]) with
  | error err => rfl
  | ok loginResponse =>
    simp only []
    cases env.encrypt loginResponse.publicKey w.conn.Config.Password with
    | none => rfl
    | some b64Pass =>
      simp only [connection.withOsUsername]
      cases env.currentUser with
      | error e => rfl
      | ok u =>
        simp only []
        rw [send_some env _ _ t (by simpa using hws)]
        simp only [List.append_assoc, List.singleton_append]
        cases env.server (w.wire ++ [.login ⟨⟨"login"⟩, w.conn.Config.ApiVersion,
                ⟨w.conn.Config.Autocommit⟩⟩, .auth (connection.authRequest env w.conn b64Pass)]) <;> rfl

theorem login_none (env : Env Rows Result) (w : World) (hws : w.conn.ws = none) :
    connection.login env w = (.error .nilPointerDereference, w) := by
  unfold connection.login
  simp [connection.send, hws]

theorem login_conn_unchanged (env : Env Rows Result) (w : World) (e : Error)
    (herr : (connection.login env w).1 = .ok (some e)) :
    (connection.login env w).2.conn = w.conn := by
  cases hws : w.conn.ws with
  | none => rw [login_none env w hws]
  | some t =>
    rw [login_some env w t hws] at herr ⊢
    cases h1 : env.server (w.wire ++ [.login ⟨⟨"login"⟩, w.conn.Config.ApiVersion,
          ⟨w.conn.Config.Autocommit⟩⟩]) with
    | error err => rfl
    | ok loginResponse =>
      rw [h1] at herr
      simp only [] at herr ⊢
      cases h2 : env.encrypt loginResponse.publicKey w.conn.Config.Password with
      | none => rfl
      | some b64Pass =>
        rw [h2] at herr
        simp only [] at herr ⊢
        cases h3 : env.currentUser with
        | error e3 => rfl
        | ok u =>
          rw [h3] at herr
          simp only [] at herr ⊢
          cases h4 : env.server (w.wire ++ [.login ⟨⟨"login"⟩, w.conn.Config.ApiVersion,
                ⟨w.conn.Config.Autocommit⟩⟩,
                .auth (connection.authRequest env w.conn b64Pass)]) with
          | error err => rfl
          | ok authResponse =>
            rw [h4] at herr
            simp at herr

/-- C7: when `login` returns an error (the login exchange failed, the password
encryption failed, or the authentication exchange failed after a valid public-key
response), no field of the connection has changed; on a connection whose closed
flag was set before the handshake the flag is still set, and `SessionID` and
`Metadata` are what they were, so no session identifier is retained. -/
theorem login_error_keeps_closed (env : Env Rows Result) (w : World) (e : Error)
    (hclosed : w.conn.isClosed = true)
    (herr : (connection.login env w).1 = .ok (some e)) :
    (connection.login env w).2.conn.isClosed = true ∧
      (connection.login env w).2.conn.SessionID = w.conn.SessionID ∧
      (connection.login env w).2.conn.Metadata = w.conn.Metadata ∧
      (connection.login env w).2.conn = w.conn := by
  have h := login_conn_unchanged env w e herr
  rw [h]
  exact ⟨hclosed, rfl, rfl, rfl⟩

/-- The public-key response is valid, and the authentication exchange is rejected:
`login` returns the error, the connection is still closed and has no session. -/
theorem login_error_keeps_closed_witness :
    (connection.login (demoEnv (okThenFail 1) (.ok ⟨"alice"⟩)) unopenedWorld).1 =
        .ok (some (.other "[40000] failed")) ∧
      (connection.login (demoEnv (okThenFail 1) (.ok ⟨"alice"⟩)) unopenedWorld).2.conn.isClosed
        = true ∧
      (connection.login (demoEnv (okThenFail 1) (.ok ⟨"alice"⟩)) unopenedWorld).2.conn.SessionID
        = 0 ∧
      (connection.login (demoEnv (okThenFail 1) (.ok ⟨"alice"⟩)) unopenedWorld).2.conn.Metadata
        = none :=
  have h := login_error_keeps_closed (demoEnv (okThenFail 1) (.ok ⟨"alice"⟩)) unopenedWorld
    (.other "[40000] failed") rfl rfl
  ⟨rfl, h.1, h.2.1, h.2.2.1⟩

/-- The three ways in which `login` returns an error, on a connection that holds a
transport: the login exchange fails, the encryption fails, the authentication
exchange fails. -/
theorem login_error_cases (env : Env Rows Result) (w : World) (t : WsConn)
    (hws : w.conn.ws = some t) :
    (∀ err, env.server (w.wire ++ [.login ⟨⟨"login"⟩, w.conn.Config.ApiVersion,
          ⟨w.conn.Config.Autocommit⟩⟩]) = .error err →
        (connection.login env w).1 = .ok (some err)) ∧
      (∀ p, env.server (w.wire ++ [.login ⟨⟨"login"⟩, w.conn.Config.ApiVersion,
          ⟨w.conn.Config.Autocommit⟩⟩]) = .ok p →
        env.encrypt p.publicKey w.conn.Config.Password = none →
        (connection.login env w).1 = .ok (some .ErrBadConn)) ∧
      (∀ p b64Pass u err, env.server (w.wire ++ [.login ⟨⟨"login"⟩, w.conn.Config.ApiVersion,
          ⟨w.conn.Config.Autocommit⟩⟩]) = .ok p →
        env.encrypt p.publicKey w.conn.Config.Password = some b64Pass →
        env.currentUser = .ok u →
        env.server (w.wire ++ [.login ⟨⟨"login"⟩, w.conn.Config.ApiVersion,
          ⟨w.conn.Config.Autocommit⟩⟩, .auth (connection.authRequest env w.conn b64Pass)]) =
            .error err →
        (connection.login env w).1 = .ok (some err)) := by
  rw [login_some env w t hws]
  refine ⟨?_, ?_, ?_⟩
  · intro err h1; rw [h1]
  · intro p h1 h2; rw [h1]; simp only []; rw [h2]
  · intro p b64Pass u err h1 h2 h3 h4
    rw [h1]; simp only []; rw [h2]; simp only []; rw [h3]; simp only []; rw [h4]

/-! ## Which commands the prepared path writes -/

theorem executePreparedStatementCommand_kind (s : CreatePreparedStatementResponse)
    (args : List Value) (command : ExecutePreparedStatementCommand)
    (h : connection.executePreparedStatementCommand s args = .ok (.ok command)) :
    command.Command = ⟨"executePreparedStatement"⟩ := by
  unfold connection.executePreparedStatementCommand at h
  simp only at h
  split at h
  · simp at h
  · split at h
    · simp at h
    · split at h
      · simp at h
      · simp only [Except.ok.injEq] at h
        rw [← h]

theorem executePreparedStatement_tail (env : Env Rows Result)
    (s : CreatePreparedStatementResponse) (args : List Value) (w : World) (t : WsConn)
    (hws : w.conn.ws = some t) :
    ∃ tail, (connection.executePreparedStatement env s args w).2.wire = w.wire ++ tail ∧
      countKind "createPreparedStatement" tail = 0 := by
  cases hcmd : connection.executePreparedStatementCommand s args with
  | error f =>
    refine ⟨[], ?_, rfl⟩
    simp [connection.executePreparedStatement, hcmd]
  | ok r =>
    cases r with
    | error err =>
      refine ⟨[], ?_, rfl⟩
      simp [connection.executePreparedStatement, hcmd]
    | ok command =>
      have hkind := executePreparedStatementCommand_kind s args command hcmd
      rw [executePreparedStatement_some env s args w t command hws hcmd]
      cases env.server (w.wire ++ [.executePrepared command]) with
      | error err =>
        refine ⟨[.executePrepared command], rfl, ?_⟩
        simp [countKind, Request.kind, hkind]
      | ok p =>
        simp only []
        split
        · refine ⟨[.executePrepared command], rfl, ?_⟩
          simp [countKind, Request.kind, hkind]
        · refine ⟨[.executePrepared command,
            .closePrepared ⟨⟨"closePreparedStatement"⟩, s.StatementHandle⟩], rfl, ?_⟩
          simp [countKind, Request.kind, hkind]

theorem exec_wire (env : Env Rows Result) (query : String) (args : List Value)
    (w : World) (t : WsConn) (hopen : w.conn.isClosed = false) (hws : w.conn.ws = some t)
    (hargs : args ≠ []) :
    (connection.exec env query args w).2.wire =
      match env.server (w.wire ++ [.createPrepared ⟨⟨"createPreparedStatement"⟩, query⟩]) with
      | .error _ => w.wire ++ [.createPrepared ⟨⟨"createPreparedStatement"⟩, query⟩]
      | .ok p => (connection.executePreparedStatement env p.prepared args
          { w with wire := w.wire ++ [.createPrepared ⟨⟨"createPreparedStatement"⟩, query⟩] }).2.wire := by
  rw [exec_prepared env query args w t hopen hws hargs]
  cases env.server (w.wire ++ [.createPrepared ⟨⟨"createPreparedStatement"⟩, query⟩]) with
  | error err => rfl
  | ok p =>
    simp only []
    generalize connection.executePreparedStatement env p.prepared args _ = x
    rcases x with ⟨_ | _ | _, _⟩ <;> rfl

theorem query_wire (env : Env Rows Result) (query : String) (args : List Value)
    (w : World) (t : WsConn) (hopen : w.conn.isClosed = false) (hws : w.conn.ws = some t)
    (hargs : args ≠ []) :
    (connection.query env query args w).2.wire =
      match env.server (w.wire ++ [.createPrepared ⟨⟨"createPreparedStatement"⟩, query⟩]) with
      | .error _ => w.wire ++ [.createPrepared ⟨⟨"createPreparedStatement"⟩, query⟩]
      | .ok p => (connection.executePreparedStatement env p.prepared args
          { w with wire := w.wire ++ [.createPrepared ⟨⟨"createPreparedStatement"⟩, query⟩] }).2.wire := by
  rw [query_prepared env query args w t hopen hws hargs]
  cases env.server (w.wire ++ [.createPrepared ⟨⟨"createPreparedStatement"⟩, query⟩]) with
  | error err => rfl
  | ok p =>
    simp only []
    generalize connection.executePreparedStatement env p.prepared args _ = x
    rcases x with ⟨_ | _ | _, _⟩ <;> rfl

/-- What the prepared path writes after the `createPreparedStatement` command. -/
theorem prepared_wire_shape (env : Env Rows Result) (query : String) (args : List Value)
    (w : World) (t : WsConn) (hws : w.conn.ws = some t) :
    ∃ tail,
      (match env.server (w.wire ++ [.createPrepared ⟨⟨"createPreparedStatement"⟩, query⟩]) with
        | .error _ => w.wire ++ [.createPrepared ⟨⟨"createPreparedStatement"⟩, query⟩]
        | .ok p => (connection.executePreparedStatement env p.prepared args
            { w with wire := w.wire ++ [.createPrepared ⟨⟨"createPreparedStatement"⟩, query⟩] }).2.wire)
        = w.wire ++ .createPrepared ⟨⟨"createPreparedStatement"⟩, query⟩ :: tail ∧
      countKind "createPreparedStatement" tail = 0 := by
  cases env.server (w.wire ++ [.createPrepared ⟨⟨"createPreparedStatement"⟩, query⟩]) with
  | error err => exact ⟨[], rfl, rfl⟩
  | ok p =>
    obtain ⟨tail, h1, h2⟩ := executePreparedStatement_tail env p.prepared args
      { w with wire := w.wire ++ [.createPrepared ⟨⟨"createPreparedStatement"⟩, query⟩] } t
      (by simpa using hws)
    refine ⟨tail, ?_, h2⟩
    simp only [h1, List.append_assoc, List.singleton_append]

theorem prepared_wire_success (env : Env Rows Result) (query : String)
    (args : List Value) (w : World) (t : WsConn) (p r : Payload) (n k : Nat)
    (hws : w.conn.ws = some t)
    (hn : 1 ≤ n) (hk : 1 ≤ k) (hcols : p.prepared.ParameterData.Columns.length = n)
    (hlen : args.length = k * n)
    (hexec : env.server (w.wire ++ [.createPrepared ⟨⟨"createPreparedStatement"⟩, query⟩,
      .executePrepared { Command := ⟨"executePreparedStatement"⟩
                         StatementHandle := p.prepared.StatementHandle
                         Columns := p.prepared.ParameterData.Columns
                         NumColumns := n
                         NumRows := k
                         Data := fillData n 0 args (List.replicate n none) }]) = .ok r)
    (hres : r.queries.NumResults ≠ 0) :
    (connection.executePreparedStatement env p.prepared args
        { w with wire := w.wire ++ [.createPrepared ⟨⟨"createPreparedStatement"⟩, query⟩] }).2.wire =
      w.wire ++ [.createPrepared ⟨⟨"createPreparedStatement"⟩, query⟩,
        .executePrepared { Command := ⟨"executePreparedStatement"⟩
                           StatementHandle := p.prepared.StatementHandle
                           Columns := p.prepared.ParameterData.Columns
                           NumColumns := n
                           NumRows := k
                           Data := fillData n 0 args (List.replicate n none) },
        .closePrepared ⟨⟨"closePreparedStatement"⟩, p.prepared.StatementHandle⟩] := by
  have hcmd := executePreparedStatementCommand_ok p.prepared args n k hn hk hcols hlen
  rw [executePreparedStatement_some env p.prepared args _ t _ (by simpa using hws) hcmd]
  simp only [List.append_assoc, List.singleton_append] at hexec ⊢
  rw [hexec]
  simp [hres]

/-- C3, as the code has it: on an open connection, for every non-empty argument list
and every behaviour of the server, `Exec` and `Query` write exactly one
`createPreparedStatement`, as the first command of the call. No
`closePreparedStatement` follows when the prepare exchange fails or when the number
of arguments is not a multiple of the `n ≥ 1` declared columns (the prepare is then
the only command). When the prepare exchange succeeds with `n ≥ 1` columns, the
number of arguments is `k * n` with `k ≥ 1` and the `executePreparedStatement`
exchange succeeds with at least one result, exactly one `closePreparedStatement`,
for the handle of the prepare response, is written, as the last of three commands. -/
theorem prepared_path_create_once_close_on_success (env : Env Rows Result)
    (query : String) (args : List Value) (w : World) (t : WsConn)
    (hopen : w.conn.isClosed = false) (hws : w.conn.ws = some t) (hargs : args ≠ []) :
    (∃ tail, (connection.Exec env query args w).2.wire =
        w.wire ++ .createPrepared ⟨⟨"createPreparedStatement"⟩, query⟩ :: tail ∧
        countKind "createPreparedStatement" tail = 0) ∧
    (∃ tail, (connection.Query env query args w).2.wire =
        w.wire ++ .createPrepared ⟨⟨"createPreparedStatement"⟩, query⟩ :: tail ∧
        countKind "createPreparedStatement" tail = 0) ∧
    (∀ err, env.server (w.wire ++ [.createPrepared ⟨⟨"createPreparedStatement"⟩, query⟩]) =
        .error err →
      (connection.Exec env query args w).2.wire =
          w.wire ++ [.createPrepared ⟨⟨"createPreparedStatement"⟩, query⟩] ∧
        (connection.Query env query args w).2.wire =
          w.wire ++ [.createPrepared ⟨⟨"createPreparedStatement"⟩, query⟩]) ∧
    (∀ p, env.server (w.wire ++ [.createPrepared ⟨⟨"createPreparedStatement"⟩, query⟩]) =
        .ok p →
      1 ≤ p.prepared.ParameterData.Columns.length →
      args.length % p.prepared.ParameterData.Columns.length ≠ 0 →
      (connection.Exec env query args w).2.wire =
          w.wire ++ [.createPrepared ⟨⟨"createPreparedStatement"⟩, query⟩] ∧
        (connection.Query env query args w).2.wire =
          w.wire ++ [.createPrepared ⟨⟨"createPreparedStatement"⟩, query⟩]) ∧
    (∀ p r n k,
      env.server (w.wire ++ [.createPrepared ⟨⟨"createPreparedStatement"⟩, query⟩]) = .ok p →
      1 ≤ n → 1 ≤ k → p.prepared.ParameterData.Columns.length = n → args.length = k * n →
      env.server (w.wire ++ [.createPrepared ⟨⟨"createPreparedStatement"⟩, query⟩,
        .executePrepared { Command := ⟨"executePreparedStatement"⟩
                           StatementHandle := p.prepared.StatementHandle
                           Columns := p.prepared.ParameterData.Columns
                           NumColumns := n
                           NumRows := k
                           Data := fillData n 0 args (List.replicate n none) }]) = .ok r →
      r.queries.NumResults ≠ 0 →
      (connection.Exec env query args w).2.wire =
          w.wire ++ [.createPrepared ⟨⟨"createPreparedStatement"⟩, query⟩,
            .executePrepared { Command := ⟨"executePreparedStatement"⟩
                               StatementHandle := p.prepared.StatementHandle
                               Columns := p.prepared.ParameterData.Columns
                               NumColumns := n
                               NumRows := k
                               Data := fillData n 0 args (List.replicate n none) },
            .closePrepared ⟨⟨"closePreparedStatement"⟩, p.prepared.StatementHandle⟩] ∧
        (connection.Query env query args w).2.wire =
          w.wire ++ [.createPrepared ⟨⟨"createPreparedStatement"⟩, query⟩,
            .executePrepared { Command := ⟨"executePreparedStatement"⟩
                               StatementHandle := p.prepared.StatementHandle
                               Columns := p.prepared.ParameterData.Columns
                               NumColumns := n
                               NumRows := k
                               Data := fillData n 0 args (List.replicate n none) },
            .closePrepared ⟨⟨"closePreparedStatement"⟩, p.prepared.StatementHandle⟩]) := by
  have he := exec_wire env query args w t hopen hws hargs
  have hq := query_wire env query args w t hopen hws hargs
  unfold connection.Exec connection.Query
  rw [he, hq]
  refine ⟨prepared_wire_shape env query args w t hws,
    prepared_wire_shape env query args w t hws, ?_, ?_, ?_⟩
  · intro err h1
    rw [h1]
    exact ⟨rfl, rfl⟩
  · intro p h1 hn hmod
    rw [h1]
    simp [executePreparedStatement_mismatch env p.prepared args _ hn hmod]
  · intro p r n k h1 hn hk hcols hlen hexec hres
    rw [h1]
    simp only []
    rw [prepared_wire_success env query args w t p r n k hws hn hk hcols hlen hexec hres]
    exact ⟨rfl, rfl⟩

/-- The scenario of the specification: `INSERT INTO t VALUES (?,?)` with the
arguments `[1, "a", 2, "b"]` and a server that accepts every command gives one
prepare, one execute with two rows, one close. -/
theorem prepared_path_create_once_close_on_success_witness :
    (connection.Exec (demoEnv okServer (.ok ⟨"alice"⟩)) "INSERT INTO t VALUES (?,?)" demoArgs
        openWorld).2.wire =
      [.createPrepared ⟨⟨"createPreparedStatement"⟩, "INSERT INTO t VALUES (?,?)"⟩,
       .executePrepared { Command := ⟨"executePreparedStatement"⟩
                          StatementHandle := 3
                          Columns := [⟨"A", "DECIMAL"⟩, ⟨"B", "VARCHAR"⟩]
                          NumColumns := 2
                          NumRows := 2
                          Data := [some [.int 1, .int 2], some [.str "a", .str "b"]] },
       .closePrepared ⟨⟨"closePreparedStatement"⟩, 3⟩] ∧
    (connection.Query (demoEnv okServer (.ok ⟨"alice"⟩)) "INSERT INTO t VALUES (?,?)" demoArgs
        openWorld).2.wire =
      [.createPrepared ⟨⟨"createPreparedStatement"⟩, "INSERT INTO t VALUES (?,?)"⟩,
       .executePrepared { Command := ⟨"executePreparedStatement"⟩
                          StatementHandle := 3
                          Columns := [⟨"A", "DECIMAL"⟩, ⟨"B", "VARCHAR"⟩]
                          NumColumns := 2
                          NumRows := 2
                          Data := [some [.int 1, .int 2], some [.str "a", .str "b"]] },
       .closePrepared ⟨⟨"closePreparedStatement"⟩, 3⟩] :=
  (prepared_path_create_once_close_on_success (demoEnv okServer (.ok ⟨"alice"⟩))
    "INSERT INTO t VALUES (?,?)" demoArgs openWorld ⟨1⟩ rfl rfl (by decide)).2.2.2.2
    demoPayload demoPayload 2 2 rfl (by decide) (by decide) rfl rfl rfl (by decide)

/-- C3 as stated does not hold: a call with a non-empty argument list does not
always write a `closePreparedStatement`. When the server rejects the prepare, the
prepare is the only command; when the number of arguments does not fit the declared
columns, the prepare is the only command; when the server rejects the execute, the
prepare and the execute are the only commands. -/
theorem close_not_always_sent :
    connection.Exec (demoEnv failServer (.ok ⟨"alice"⟩)) "INSERT INTO t VALUES (?,?)" demoArgs
        openWorld =
      (.ok (.error (.other "[42000] syntax error")),
        { openWorld with wire :=
            [.createPrepared ⟨⟨"createPreparedStatement"⟩, "INSERT INTO t VALUES (?,?)"⟩] }) ∧
    connection.Exec (demoEnv okServer (.ok ⟨"alice"⟩)) "INSERT INTO t VALUES (?,?)"
        [.int 1, .str "a", .int 2] openWorld =
      (.ok (.error .ErrInvalidValuesCount),
        { openWorld with wire :=
            [.createPrepared ⟨⟨"createPreparedStatement"⟩, "INSERT INTO t VALUES (?,?)"⟩] }) ∧
    connection.Query (demoEnv (okThenFail 1) (.ok ⟨"alice"⟩)) "INSERT INTO t VALUES (?,?)"
        demoArgs openWorld =
      (.ok (.error (.other "[40000] failed")),
        { openWorld with wire :=
            [.createPrepared ⟨⟨"createPreparedStatement"⟩, "INSERT INTO t VALUES (?,?)"⟩,
             .executePrepared { Command := ⟨"executePreparedStatement"⟩
                                StatementHandle := 3
                                Columns := [⟨"A", "DECIMAL"⟩, ⟨"B", "VARCHAR"⟩]
                                NumColumns := 2
                                NumRows := 2
                                Data := [some [.int 1, .int 2], some [.str "a", .str "b"]] }] }) ∧
    ¬ (∀ (env : Env SQLQueriesResponse SQLQueriesResponse) (query : String)
        (args : List Value) (w : World),
        w.conn.isClosed = false → w.conn.ws ≠ none → args ≠ [] →
        ∃ sent, (connection.Exec env query args w).2.wire = w.wire ++ sent ∧
          countKind "createPreparedStatement" sent = 1 ∧
          countKind "closePreparedStatement" sent = 1) := by
  refine ⟨rfl, rfl, rfl, ?_⟩
  intro h
  obtain ⟨sent, h1, _, h3⟩ := h (demoEnv failServer (.ok ⟨"alice"⟩))
    "INSERT INTO t VALUES (?,?)" demoArgs openWorld rfl (by simp [openWorld])
    (by simp [demoArgs])
  have hw : (connection.Exec (demoEnv failServer (.ok ⟨"alice"⟩))
      "INSERT INTO t VALUES (?,?)" demoArgs openWorld).2.wire =
      [.createPrepared ⟨⟨"createPreparedStatement"⟩, "INSERT INTO t VALUES (?,?)"⟩] := rfl
  rw [hw] at h1
  have hs : sent =
      [.createPrepared ⟨⟨"createPreparedStatement"⟩, "INSERT INTO t VALUES (?,?)"⟩] := by
    simpa [openWorld] using h1.symm
  rw [hs] at h3
  simp [countKind, Request.kind] at h3

/-! ## Defects -/

/-- C9 against the code: when `user.Current()` succeeds with the user `alice`, the
authentication command is sent with an empty `ClientOsUsername`; when it fails, the
handshake ends in a nil-pointer fault after the login exchange and no
authentication command is sent. -/
theorem login_os_username_inverted :
    (connection.login (demoEnv okServer (.ok ⟨"alice"⟩)) unopenedWorld).2.wire =
      [.login ⟨⟨"login"⟩, 1, ⟨false⟩⟩,
       .auth { Username := "sys"
               Password := "rsa:exasol"
               UseCompression := false
               ClientName := "app"
               DriverName := "go-exasol-client 0.1.0"
               ClientOs := "linux"
               ClientVersion := "app"
               ClientRuntime := "go1.16"
               ClientOsUsername := ""
               Attributes := ⟨false⟩ }] ∧
    connection.login (demoEnv okServer (.error (.other "user: Current not implemented")))
        unopenedWorld =
      (.error .nilPointerDereference,
        { unopenedWorld with wire := [.login ⟨⟨"login"⟩, 1, ⟨false⟩⟩] }) := by
  constructor
  · rw [login_some _ unopenedWorld ⟨1⟩ rfl]
    simp [demoEnv, okServer, unopenedWorld, demoConfig, connection.authRequest]
  · rw [login_some _ unopenedWorld ⟨1⟩ rfl]
    simp [demoEnv, okServer, unopenedWorld, demoConfig]

/-- C10 against the code: with a prepare response that declares no parameter column
and one argument, `executePreparedStatement` ends in an integer-divide-by-zero fault
instead of returning `ErrInvalidValuesCount`; through `Exec` and `Query` the fault
comes after the `createPreparedStatement` command was written. -/
theorem zero_columns_divide_by_zero :
    connection.executePreparedStatement (demoEnv noParamServer (.ok ⟨"alice"⟩))
        noParamPayload.prepared [.int 1] openWorld =
      (.error .integerDivideByZero, openWorld) ∧
    connection.Exec (demoEnv noParamServer (.ok ⟨"alice"⟩)) "SELECT 1" [.int 1] openWorld =
      (.error .integerDivideByZero,
        { openWorld with wire := [.createPrepared ⟨⟨"createPreparedStatement"⟩, "SELECT 1"⟩] }) ∧
    connection.Query (demoEnv noParamServer (.ok ⟨"alice"⟩)) "SELECT 1" [.int 1] openWorld =
      (.error .integerDivideByZero,
        { openWorld with wire := [.createPrepared ⟨⟨"createPreparedStatement"⟩, "SELECT 1"⟩] }) :=
  ⟨rfl, rfl, rfl⟩

end Exasol
